import Mathlib

/- Verification of scripts/constituents.py (class ConstituentVarDict):
   a shallow embedding of the constituent-variable dictionary and of the
   Fortran code generation it performs, with theorems about resolution,
   materialization and the emitted routine text. -/

namespace CCPP

/-- Model of a CCPP variable descriptor (metavar.Var), restricted to the
properties scripts/constituents.py reads: `standard_name`, `local_name`,
the ordered dimension expressions, the `advected` and constituent flags,
the optional intent tag and the source type. -/
structure Var where
  standard_name : String
  local_name : String
  dimensions : List String
  advected : Bool
  is_constituent : Bool
  intent : Option String
  source_type : String
deriving DecidableEq, Repr

/-- Modelled from the spec: `Var.clone` (metavar.py, not under src/). The spec
says a materialized descriptor is "a clone of the source descriptor with the
rewritten dimensions", with intent stripped and the given source type set
(`clone(overrides, removeIntent, sourceType)` in the external interface list).
Source call site: `source_var.clone({'dimensions' : newdims}, remove_intent=True,
source_type=self.__constituent_type)` (constituents.py line 120). -/
def Var.clone (v : Var) (newdims : List String) (remove_intent : Bool)
    (source_type : String) : Var :=
  { v with dimensions := newdims,
           intent := if remove_intent then none else v.intent,
           source_type := source_type }

/-- Python's `dim.split(':')` on the character list of a dimension
expression: `"a:b" ↦ ["a", "b"]`, `"" ↦ [""]` (constituents.py line 105). -/
def splitColon : List Char → List (List Char)
  | [] => [[]]
  | c :: rest =>
    if c = ':' then [] :: splitColon rest
    else
      match splitColon rest with
      | [] => [[c]]
      | h :: t => (c :: h) :: t

/-- Modelled from the spec: `Var.get_dim_stdnames` (metavar.py, not under
src/) yields the dimension standard names of the variable; a `begin:end`
range expression contributes both of its token names ("if
`vertical_layer_dimension` appears among that entry's dimension names"). -/
def Var.get_dim_stdnames (v : Var) : List String :=
  (v.dimensions.map (fun d => (splitColon d.data).map String.mk)).flatten

/-- Modelled from the spec: the parent of a `ConstituentVarDict` is an
external `VarDictionary` (metavar.py, not under src/). Per the spec,
resolution through ancestors is a pure read ("Side effects only on the
materialization path; all other paths are pure reads"), so the parent is
modelled by its `find_variable` method alone, an arbitrary pure function of
the arguments the source passes at the recursive call site
(standard_name, source_var, any_scope, clone, search_call_list, loop_subst). -/
structure ParentDict where
  find : Option String → Option Var → Bool → Option Var → Bool → Bool → Option Var

/-- The constituent dictionary (constituents.py lines 28-51): a name, an
ordered mapping `standard_name → Var` (insertion order significant), and an
optional parent dictionary. -/
structure ConstituentVarDict where
  name : String
  entries : List (String × Var)
  parent_dict : Option ParentDict

/-- The token substitution of constituents.py lines 107-116: each
`horizontal_loop_extent` and `horizontal_loop_end` token becomes
`horizontal_dimension`, each `horizontal_loop_begin` becomes
`ccpp_constant_one`, every other token is unchanged. -/
def subst_loop_token (dstdname : String) : String :=
  if dstdname = "horizontal_loop_extent" then "horizontal_dimension"
  else if dstdname = "horizontal_loop_end" then "horizontal_dimension"
  else if dstdname = "horizontal_loop_begin" then "ccpp_constant_one"
  else dstdname

/-- The per-dimension rewrite of constituents.py lines 104-118: split the
dimension expression on `:`, substitute each token, rejoin with `:`. -/
def subst_dim (dim : String) : String :=
  String.intercalate ":" ((splitColon dim.data).map (fun cs => subst_loop_token (String.mk cs)))

/-- Modelled from the spec: `VarDictionary.add_variable` (metavar.py, not
under src/) inserts the descriptor into the table's ordered mapping keyed by
its standard name ("insert into the local table"; insertion order is
significant and appended at the end). Source call site: constituents.py
line 122. -/
def ConstituentVarDict.add_variable (dict : ConstituentVarDict) (v : Var) :
    ConstituentVarDict :=
  { dict with entries := dict.entries ++ [(v.standard_name, v)] }

/-- The lookup step of `ConstituentVarDict.find_variable` (constituents.py
lines 85-97): the local lookup (`standard_name in self` /
`self[standard_name]`), then, under `any_scope`, the recursive delegation to
the parent of lines 87-94, which passes `clone=None`. -/
def ConstituentVarDict.local_or_parent_var (dict : ConstituentVarDict)
    (sname : String) (source_var : Option Var) (any_scope : Bool)
    (search_call_list : Bool) (loop_subst : Bool) : Option Var :=
  match dict.entries.lookup sname with
  | some v => some v
  | none =>
    if any_scope then
      match dict.parent_dict with
      | some p => p.find (some sname) source_var any_scope none search_call_list loop_subst
      | none => none
    else none

/-- The materialization step of `ConstituentVarDict.find_variable`
(constituents.py lines 98-123), applied to the result of the lookup. -/
def ConstituentVarDict.find_variable_resolved (dict : ConstituentVarDict)
    (sname : String) (source_var : Option Var) (any_scope : Bool)
    (search_call_list : Bool) (loop_subst : Bool) :
    Option Var × ConstituentVarDict :=
  match dict.local_or_parent_var sname source_var any_scope search_call_list loop_subst,
        source_var with
  | none, some sv =>
    if sv.is_constituent then
      let newdims := sv.dimensions.map subst_dim
      let nvar := sv.clone newdims true "suite"
      (some nvar, dict.add_variable nvar)
    else
      (none, dict)
  | v, _ => (v, dict)

/-- `ConstituentVarDict.find_variable` (constituents.py lines 53-123).
Returns `Except.error` where the source raises `ParseInternalError`
(lines 71-84: both name sources omitted, or both supplied with differing
standard names); every other path resolves the standard name and runs
`find_variable_resolved`, which cannot raise. The `clone` argument is
accepted but not used by the source ("cloning is not handled at this
level"). -/
def ConstituentVarDict.find_variable (dict : ConstituentVarDict)
    (standard_name : Option String) (source_var : Option Var)
    (any_scope : Bool) (clone : Option Var)
    (search_call_list : Bool) (loop_subst : Bool) :
    Except String (Option Var × ConstituentVarDict) :=
  match standard_name, source_var with
  | none, none =>
      Except.error "One of <standard_name> or <source_var> must be passed."
  | none, some sv =>
      Except.ok (dict.find_variable_resolved sv.standard_name (some sv) any_scope
        search_call_list loop_subst)
  | some sn, some sv =>
      if sv.standard_name ≠ sn then
        Except.error "Only one of <standard_name> or <source_var> may be passed."
      else
        Except.ok (dict.find_variable_resolved sn (some sv) any_scope
          search_call_list loop_subst)
  | some sn, none =>
      Except.ok (dict.find_variable_resolved sn none any_scope
        search_call_list loop_subst)

/-! Code generation. The abstract indenting sink of the spec
(`write(line, indentLevel)`) is modelled as a list of emitted
(line, indent) pairs, in emission order. -/

/-- One emitted line: its text and its indent level. -/
abbrev Line := String × Nat

/-- The outcome of a generation step: the lines written to the sink (in
order), and the message of the `ParseInternalError` the step raised, if any.
When a step raises, the lines it wrote before raising are kept, as they have
already reached the sink. -/
structure GenOut where
  lines : List Line
  err : Option String
deriving DecidableEq, Repr

/-- A generation step that only writes and cannot raise. -/
def GenOut.write (ls : List Line) : GenOut := ⟨ls, none⟩

/-- Sequencing of generation steps: a raise aborts everything after it. -/
def GenOut.seq (a b : GenOut) : GenOut :=
  match a.err with
  | some _ => a
  | none => ⟨a.lines ++ b.lines, b.err⟩

/-- Modelled from the spec: `Var.write_def` (metavar.py, not under src/)
writes one declaration line for the variable at the given indent; its exact
text is produced outside this repository and is abstracted here as a line
determined by the variable's local name. -/
def Var.write_def (v : Var) (indent : Nat) : Line :=
  ("<declaration of " ++ v.local_name ++ ">", indent)

/-- `ConstituentVarDict.constituent_prop_array_name` (constituents.py
lines 34, 539-542). -/
def constituent_prop_array_name : String := "ccpp_constituent_array"

/-- `ConstituentVarDict.constituent_prop_init_name` (constituents.py
lines 35, 544-547). -/
def constituent_prop_init_name : String := "ccpp_constituents_initialized"

/-- `ConstituentVarDict.constituent_prop_init_consts` (constituents.py
lines 36, 549-553). -/
def constituent_prop_init_consts : String := "ccpp_create_constituent_array"

/-- `ConstituentVarDict.constituent_prop_type_name` (constituents.py
lines 37, 555-559). -/
def constituent_prop_type_name : String := "ccpp_constituent_properties_t"

/-- `ConstituentVarDict.num_consts_funcname` (constituents.py lines 337-340). -/
def ConstituentVarDict.num_consts_funcname (dict : ConstituentVarDict) : String :=
  dict.name ++ "_num_consts"

/-- `ConstituentVarDict.const_name_subname` (constituents.py lines 342-345). -/
def ConstituentVarDict.const_name_subname (dict : ConstituentVarDict) : String :=
  dict.name ++ "_const_name"

/-- `ConstituentVarDict.copy_const_subname` (constituents.py lines 347-350). -/
def ConstituentVarDict.copy_const_subname (dict : ConstituentVarDict) : String :=
  dict.name ++ "_copy_const"

/-- `ConstituentVarDict.TF_string` (constituents.py lines 570-578). -/
def TF_string (tf_val : Bool) : String :=
  if tf_val then ".true." else ".false."

/-- The local names of the error variables (constituents.py line 214). -/
def errvar_names (err_vars : List Var) : List String :=
  err_vars.map (·.local_name)

/-- `use_errflg` (constituents.py line 215): both `errflg` and `errmsg`
occur among the error variables' local names. -/
def use_errflg (err_vars : List Var) : Bool :=
  (errvar_names err_vars).contains "errflg" && (errvar_names err_vars).contains "errmsg"

/-- `errvar_alist` (constituents.py line 216). -/
def errvar_alist (err_vars : List Var) : String :=
  String.intercalate ", " (errvar_names err_vars)

/-- `errvar_alist2` (constituents.py line 217). -/
def errvar_alist2 (err_vars : List Var) : String :=
  if errvar_alist err_vars ≠ "" then ", " ++ errvar_alist err_vars else ""

/-- `errvar_call` (constituents.py line 218). -/
def errvar_call (err_vars : List Var) : String :=
  String.intercalate ", " ((errvar_names err_vars).map (fun x => x ++ "=" ++ x))

/-- `errvar_call2` (constituents.py line 219). -/
def errvar_call2 (err_vars : List Var) : String :=
  if errvar_call err_vars ≠ "" then ", " ++ errvar_call err_vars else ""

/-- The `"\n! " + 72*"=" + "\n"` separator written at indent 1 between the
generated routines (constituents.py lines 260, 280, 303). -/
def eq_separator : Line :=
  ("\n! " ++ String.mk (List.replicate 72 '=') ++ "\n", 1)

/-- `ConstituentVarDict._write_init_check` (constituents.py lines 153-175):
writes a blank line, then, under `use_errflg`, clears the error variables and
writes the initialized-flag guard; without `use_errflg` it raises
`ParseInternalError` after the blank line. -/
def ConstituentVarDict._write_init_check (dict : ConstituentVarDict)
    (indent : Nat) (suite_name : String) (errvar_names : List String)
    (u_errflg : Bool) : GenOut :=
  if u_errflg then
    GenOut.write
     [("", 0),
      ("errflg = 0", indent + 1),
      ("errmsg = ''", indent + 1),
      ("! Make sure that our constituent array is initialized", indent + 1),
      ("if (.not. " ++ constituent_prop_init_name ++ ") then", indent + 1),
      ("errflg = 1", indent + 2),
      ("errmsg = \"constituent properties not initialized for suite, "
        ++ suite_name ++ "\"", indent + 2),
      ("end if", indent + 1)]
  else
    ⟨[("", 0)], some "Alternative to errflg not implemented"⟩

/-- `ConstituentVarDict._write_index_check` (constituents.py lines 177-206):
under `use_errflg`, a non-empty table gets the two-sided bounds guard against
`SIZE(ccpp_constituent_array)`; an empty table gets an unconditional
`errflg = 1` whose message template is written without `.format(suite_name)`
(lines 200-202), so the literal `\x7b\x7d` placeholder is emitted. Without
`use_errflg` it raises `ParseInternalError`. -/
def ConstituentVarDict._write_index_check (dict : ConstituentVarDict)
    (indent : Nat) (suite_name : String) (errvar_names : List String)
    (u_errflg : Bool) : GenOut :=
  if u_errflg then
    GenOut.write
      (if dict.entries ≠ [] then
        [("if (index < 1) then", indent + 1),
         ("errflg = 1", indent + 2),
         ("write(errmsg, '(a,i0,a)') 'ERROR: index (',index,') too small, must be >= 1'",
           indent + 2),
         ("else if (index > SIZE(" ++ constituent_prop_array_name ++ ")) then", indent + 1),
         ("errflg = 1", indent + 2),
         ("write(errmsg, '(2(a,i0))') 'ERROR: index (',index,') too large, must be <= ', SIZE("
           ++ constituent_prop_array_name ++ ")", indent + 2),
         ("end if", indent + 1)]
      else
        [("errflg = 1", indent + 1),
         ("write(errmsg, '(a,i0,a)') 'ERROR: suite, \x7b\x7d, has no constituents'",
           indent + 1)])
  else
    ⟨[], some "Alternative to errflg not implemented"⟩

/-- The two lines the init routine writes for one table entry
(constituents.py lines 239-253): the index increment and the constructor
call with the entry's standard name, the vertical dimension tag picked at
lines 242-247, and the advected flag rendered by `TF_string`. -/
def init_entry_lines (err_vars : List Var) (indent : Nat) (p : String × Var) : List Line :=
  let dims := p.2.get_dim_stdnames
  let vertical_dim :=
    if dims.contains "vertical_layer_dimension" then "vertical_layer_dimension"
    else if dims.contains "vertical_interface_dimension" then "vertical_interface_dimension"
    else ""
  [("index = index + 1", indent + 1),
   ("call " ++ constituent_prop_array_name ++ "(index)%initialize(\"" ++ p.1
     ++ "\", \"" ++ vertical_dim ++ "\", " ++ TF_string p.2.advected
     ++ errvar_call2 err_vars ++ ")", indent + 1)]

/-- The allocate/define subroutine written by
`ConstituentVarDict.write_constituent_routines` (constituents.py
lines 220-260), up to and including the separator of line 260. -/
def ConstituentVarDict.init_routine_lines (dict : ConstituentVarDict)
    (indent : Nat) (err_vars : List Var) : List Line :=
  [("subroutine " ++ constituent_prop_init_consts ++ "(" ++ errvar_alist err_vars ++ ")",
     indent),
   ("! Allocate and fill the constituent property array", indent + 1),
   ("!    for this suite", indent + 1),
   ("! Dummy arguments", indent + 1)]
  ++ err_vars.map (fun evar => evar.write_def (indent + 1))
  ++ (if dict.entries ≠ [] then
        [("! Local variables", indent + 1),
         ("integer :: index", indent + 1),
         ("allocate(" ++ constituent_prop_array_name ++ "("
           ++ toString dict.entries.length ++ "))", indent + 1),
         ("index = 0", indent + 1)]
      else [])
  ++ (dict.entries.map (init_entry_lines err_vars indent)).flatten
  ++ [(constituent_prop_init_name ++ " = .true.", indent + 1),
      ("end subroutine " ++ constituent_prop_init_consts, indent),
      ("", 0),
      eq_separator]

/-- The constituent-count function written by
`ConstituentVarDict.write_constituent_routines` (constituents.py
lines 261-280), up to and including the separator of line 280. -/
def ConstituentVarDict.num_consts_lines (dict : ConstituentVarDict)
    (indent : Nat) (err_vars : List Var) : List Line :=
  [("integer function " ++ dict.num_consts_funcname ++ "(" ++ errvar_alist err_vars ++ ")",
     indent),
   ("! Return the number of constituents for this suite", indent + 1),
   ("! Dummy arguments", indent + 1)]
  ++ err_vars.map (fun evar => evar.write_def (indent + 1))
  ++ [("! Make sure that our constituent array is initialized", indent + 1),
      ("if (.not. " ++ constituent_prop_init_name ++ ") then", indent + 1),
      ("call " ++ constituent_prop_init_consts ++ "(" ++ errvar_call err_vars ++ ")",
        indent + 2),
      ("end if", indent + 1),
      (dict.num_consts_funcname ++ " = " ++ toString dict.entries.length, indent + 1),
      ("end function " ++ dict.num_consts_funcname, indent),
      eq_separator]

/-- The name-by-index subroutine written by
`ConstituentVarDict.write_constituent_routines` (constituents.py
lines 281-303), up to and including the separator of line 303. -/
def ConstituentVarDict.const_name_routine (dict : ConstituentVarDict)
    (indent : Nat) (suite_name : String) (err_vars : List Var) : GenOut :=
  (GenOut.write
    ([("subroutine " ++ dict.const_name_subname ++ "(index, name_out"
        ++ errvar_alist2 err_vars ++ ")", indent),
      ("! Return the name of constituent, <index>", indent + 1),
      ("! Dummy arguments", indent + 1),
      ("integer,            intent(in)    :: index", indent + 1),
      ("character(len=*),   intent(out)   :: name_out", indent + 1)]
     ++ err_vars.map (fun evar => evar.write_def (indent + 1)))).seq
  ((dict._write_init_check indent suite_name (errvar_names err_vars)
      (use_errflg err_vars)).seq
  ((dict._write_index_check indent suite_name (errvar_names err_vars)
      (use_errflg err_vars)).seq
  (GenOut.write
    ((if dict.entries ≠ [] then
        [("call " ++ constituent_prop_array_name ++ "(index)%standard_name(name_out"
           ++ errvar_call2 err_vars ++ ")", indent + 1)]
      else [])
     ++ [("end subroutine " ++ dict.const_name_subname, indent),
         eq_separator]))))

/-- The copy-by-index subroutine written by
`ConstituentVarDict.write_constituent_routines` (constituents.py
lines 304-325). -/
def ConstituentVarDict.copy_const_routine (dict : ConstituentVarDict)
    (indent : Nat) (suite_name : String) (err_vars : List Var) : GenOut :=
  (GenOut.write
    ([("subroutine " ++ dict.copy_const_subname ++ "(index, cnst_out"
        ++ errvar_alist2 err_vars ++ ")", indent),
      ("! Copy the data for a constituent", indent + 1),
      ("! Dummy arguments", indent + 1),
      ("integer,            intent(in)    :: index", indent + 1),
      ("type(" ++ constituent_prop_type_name ++ "), intent(out)     :: cnst_out",
        indent + 1)]
     ++ err_vars.map (fun evar => evar.write_def (indent + 1)))).seq
  ((dict._write_init_check indent suite_name (errvar_names err_vars)
      (use_errflg err_vars)).seq
  ((dict._write_index_check indent suite_name (errvar_names err_vars)
      (use_errflg err_vars)).seq
  (GenOut.write
    ((if dict.entries ≠ [] then
        [("cnst_out = " ++ constituent_prop_array_name ++ "(index)", indent + 1)]
      else [])
     ++ [("end subroutine " ++ dict.copy_const_subname, indent)]))))

/-- `ConstituentVarDict.write_constituent_routines` (constituents.py
lines 208-325): the allocate/define subroutine, the count function, the
name-by-index subroutine and the copy-by-index subroutine, in emission
order. -/
def ConstituentVarDict.write_constituent_routines (dict : ConstituentVarDict)
    (indent : Nat) (suite_name : String) (err_vars : List Var) : GenOut :=
  (GenOut.write (dict.init_routine_lines indent err_vars)).seq
  ((GenOut.write (dict.num_consts_lines indent err_vars)).seq
  ((dict.const_name_routine indent suite_name err_vars).seq
   (dict.copy_const_routine indent suite_name err_vars)))

/-- The index-resolution block of the host registration routine
(`ConstituentVarDict.write_host_routines`, constituents.py lines 472-486),
as emitted into the cap: the loop over the caller's index array that looks
up each required name's registry field index and stores it, or fails with
`errflg = 1` and exits. -/
def host_set_index_lines (const_obj_name const_names_name const_indices_name : String) :
    List Line :=
  [("! Set the index for each active constituent", 2),
   ("do index = 1, SIZE(" ++ const_indices_name ++ ")", 2),
   ("field_ind = " ++ const_obj_name ++ "%field_index(" ++ const_names_name
     ++ "(index), errflg=errflg, errmsg=errmsg)", 3),
   ("if (field_ind > 0) then", 3),
   (const_indices_name ++ "(index) = field_ind", 4),
   ("else", 3),
   ("errflg = 1", 4),
   ("errmsg = 'No field index for '//trim(" ++ const_names_name ++ "(index))", 4),
   ("end if", 3),
   ("if (errflg /= 0) then", 3),
   ("exit", 4),
   ("end if", 3),
   ("end do", 2)]

/-- Run-time semantics of `host_set_index_lines`, transcribed statement by
statement from the emitted Fortran: iterate over the required names in order
(1-based positions, `pos` is the loop index), look up each name's registry
field index through `field_index`; a positive result is stored at that
name's position, a non-positive result sets `errflg = 1` with the message
`'No field index for '//trim(name)` and exits the loop. Returns the stored
(position, field index) assignments in order, the final `errflg`, and the
final `errmsg`. -/
def set_index_loop_go (field_index : String → Int) :
    List String → Nat → List (Nat × Int) → List (Nat × Int) × Int × String
  | [], _, acc => (acc.reverse, 0, "")
  | n :: rest, pos, acc =>
    let field_ind := field_index n
    if field_ind > 0 then
      set_index_loop_go field_index rest (pos + 1) ((pos, field_ind) :: acc)
    else
      (acc.reverse, 1, "No field index for " ++ n)

/-- The emitted index-resolution loop run on a list of required names,
starting from position 1 with a clean error state. -/
def set_index_loop (field_index : String → Int) (names : List String) :
    List (Nat × Int) × Int × String :=
  set_index_loop_go field_index names 1 []

/-- The observable outcome of one call of the emitted name-by-index
subroutine: the error flag and message it leaves, the name it wrote to
`name_out` (if the array slot exists), and the array subscripts the call
statement evaluated. -/
structure NameCallResult where
  errflg : Int
  errmsg : String
  name_out : Option String
  reads : List Int
deriving DecidableEq, Repr

/-- Run-time semantics of the name-by-index subroutine emitted for a
non-empty table under the errflg/errmsg convention (the lines established by
theorem `const_name_routine_guard_order` below), transcribed statement by
statement from the emitted Fortran. `arr` holds the standard names stored in
`ccpp_constituent_array` and `flag` is the module's initialized flag. The
two guards only assign `errflg`/`errmsg`; the final statement
`call ccpp_constituent_array(index)%standard_name(name_out, ...)` is emitted
outside both guards, so the model evaluates the subscript
`ccpp_constituent_array(index)` unconditionally and records it in `reads`. -/
def const_name_call (suite_name : String) (flag : Bool) (arr : List String)
    (index : Int) : NameCallResult :=
  let e0 : Int × String := (0, "")
  let e1 : Int × String :=
    if !flag then
      (1, "constituent properties not initialized for suite, " ++ suite_name)
    else e0
  let e2 : Int × String :=
    if index < 1 then
      (1, "ERROR: index (" ++ toString index ++ ") too small, must be >= 1")
    else if index > (arr.length : Int) then
      (1, "ERROR: index (" ++ toString index ++ ") too large, must be <= "
        ++ toString arr.length)
    else e1
  { errflg := e2.1, errmsg := e2.2,
    name_out :=
      if 1 ≤ index ∧ index ≤ (arr.length : Int) then arr.get? (index - 1).toNat
      else none,
    reads := [index] }

/-! Concrete fixtures used by witnesses and counterexamples. -/

/-- A constituent source descriptor with loop-indexed dimensions, as a
scheme would request it. -/
def qvVar : Var :=
  { standard_name := "specific_humidity", local_name := "qv",
    dimensions := ["horizontal_loop_begin:horizontal_loop_end", "vertical_layer_dimension"],
    advected := true, is_constituent := true,
    intent := some "inout", source_type := "scheme" }

/-- The descriptor `find_variable` materializes from `qvVar`. -/
def qvMat : Var := qvVar.clone (qvVar.dimensions.map subst_dim) true "suite"

/-- An empty constituent dictionary with no parent. -/
def emptyDict : ConstituentVarDict :=
  { name := "banana_suite", entries := [], parent_dict := none }

/-- A one-entry dictionary holding `qvVar` under its standard name. -/
def qvDict : ConstituentVarDict :=
  { name := "banana_suite", entries := [("specific_humidity", qvVar)], parent_dict := none }

/-- An `errflg` error variable. -/
def errflgVar : Var :=
  { standard_name := "ccpp_error_code", local_name := "errflg", dimensions := [],
    advected := false, is_constituent := false, intent := some "out",
    source_type := "host" }

/-- An `errmsg` error variable. -/
def errmsgVar : Var :=
  { standard_name := "ccpp_error_message", local_name := "errmsg", dimensions := [],
    advected := false, is_constituent := false, intent := some "out",
    source_type := "host" }

/-- An error variable whose local name is `ierr`, i.e. a convention other
than the errflg/errmsg pair. -/
def ierrVar : Var :=
  { standard_name := "error_status", local_name := "ierr", dimensions := [],
    advected := false, is_constituent := false, intent := some "out",
    source_type := "host" }

/-- A concrete registry lookup for witnesses: `graupel` has no field index,
every other name has field index 3. -/
def sampleFieldIndex (n : String) : Int :=
  if n = "graupel" then 0 else 3

/-! Theorems. -/

/-- Helper: any successful `find_variable_resolved` leaves the name and the
parent chain unchanged, and either leaves the entries unchanged or appends
the single materialized suite-typed descriptor. -/
theorem find_variable_resolved_spec (dict : ConstituentVarDict) (sname : String)
    (source_var : Option Var) (any_scope search_call_list loop_subst : Bool)
    (v : Option Var) (dict' : ConstituentVarDict)
    (h : dict.find_variable_resolved sname source_var any_scope search_call_list
          loop_subst = (v, dict')) :
    dict'.name = dict.name ∧ dict'.parent_dict = dict.parent_dict ∧
      (dict'.entries = dict.entries ∨
        ∃ nvar, v = some nvar ∧ nvar.source_type = "suite" ∧
          dict'.entries = dict.entries ++ [(nvar.standard_name, nvar)]) := by
  unfold ConstituentVarDict.find_variable_resolved at h
  split at h
  · split_ifs at h with hc
    · obtain ⟨rfl, rfl⟩ := Prod.mk.injEq .. ▸ h
      exact ⟨rfl, rfl, Or.inr ⟨_, rfl, rfl, rfl⟩⟩
    · obtain ⟨rfl, rfl⟩ := Prod.mk.injEq .. ▸ h
      exact ⟨rfl, rfl, Or.inl rfl⟩
  · obtain ⟨rfl, rfl⟩ := Prod.mk.injEq .. ▸ h
    exact ⟨rfl, rfl, Or.inl rfl⟩

/-- C7: `find_variable` raises `ParseInternalError` if and only if either
both `standard_name` and `source_var` are omitted, or both are supplied and
their standard names differ; in every other configuration the call proceeds
without raising. -/
theorem find_variable_error_iff (dict : ConstituentVarDict)
    (standard_name : Option String) (source_var : Option Var)
    (any_scope : Bool) (clone : Option Var) (search_call_list loop_subst : Bool) :
    (∃ e, dict.find_variable standard_name source_var any_scope clone
        search_call_list loop_subst = Except.error e) ↔
      (standard_name = none ∧ source_var = none) ∨
      (∃ sn sv, standard_name = some sn ∧ source_var = some sv ∧
        sv.standard_name ≠ sn) := by
  cases standard_name with
  | none =>
    cases source_var <;> simp [ConstituentVarDict.find_variable]
  | some sn =>
    cases source_var with
    | none => simp [ConstituentVarDict.find_variable]
    | some sv =>
      by_cases h : sv.standard_name = sn <;>
        simp [ConstituentVarDict.find_variable, h]

/-- C10: two `find_variable` calls that differ only in the `clone` argument
return the same result and the same dictionary: the source accepts `clone`
but never uses it, and its recursive call to the parent passes `clone=None`
(the parent resolver, quantified inside `dict`, is never given either
argument). -/
theorem find_variable_ignores_clone (dict : ConstituentVarDict)
    (standard_name : Option String) (source_var : Option Var) (any_scope : Bool)
    (clone1 clone2 : Option Var) (search_call_list loop_subst : Bool) :
    dict.find_variable standard_name source_var any_scope clone1
        search_call_list loop_subst =
      dict.find_variable standard_name source_var any_scope clone2
        search_call_list loop_subst := rfl

/-- C6: every successful `find_variable` call returns a dictionary with the
same name and the same (unmodified) parent chain, whose entries are either
unchanged or extended exactly by the one materialized suite-typed
descriptor: a materialized descriptor is inserted only into the table the
call was made on, never into an ancestor. -/
theorem find_variable_inserts_only_locally (dict : ConstituentVarDict)
    (standard_name : Option String) (source_var : Option Var)
    (any_scope : Bool) (clone : Option Var) (search_call_list loop_subst : Bool)
    (v : Option Var) (dict' : ConstituentVarDict)
    (h : dict.find_variable standard_name source_var any_scope clone
          search_call_list loop_subst = Except.ok (v, dict')) :
    dict'.name = dict.name ∧ dict'.parent_dict = dict.parent_dict ∧
      (dict'.entries = dict.entries ∨
        ∃ nvar, v = some nvar ∧ nvar.source_type = "suite" ∧
          dict'.entries = dict.entries ++ [(nvar.standard_name, nvar)]) := by
  cases standard_name with
  | none =>
    cases source_var with
    | none => simp [ConstituentVarDict.find_variable] at h
    | some sv =>
      simp only [ConstituentVarDict.find_variable, Except.ok.injEq] at h
      exact find_variable_resolved_spec _ _ _ _ _ _ _ _ h
  | some sn =>
    cases source_var with
    | none =>
      simp only [ConstituentVarDict.find_variable, Except.ok.injEq] at h
      exact find_variable_resolved_spec _ _ _ _ _ _ _ _ h
    | some sv =>
      by_cases hs : sv.standard_name = sn
      · simp only [ConstituentVarDict.find_variable, hs, ne_eq, not_true_eq_false,
          if_false, ite_false, Except.ok.injEq] at h
        exact find_variable_resolved_spec _ _ _ _ _ _ _ _ h
      · simp [ConstituentVarDict.find_variable, hs] at h

/-- Witness for C6: resolving `specific_humidity` on an empty parentless
dictionary with `qvVar` as source materializes `qvMat` and appends it
locally. -/
theorem find_variable_inserts_only_locally_witness :
    (emptyDict.add_variable qvMat).name = emptyDict.name ∧
    (emptyDict.add_variable qvMat).parent_dict = emptyDict.parent_dict ∧
      ((emptyDict.add_variable qvMat).entries = emptyDict.entries ∨
        ∃ nvar, some qvMat = some nvar ∧ nvar.source_type = "suite" ∧
          (emptyDict.add_variable qvMat).entries =
            emptyDict.entries ++ [(nvar.standard_name, nvar)]) :=
  find_variable_inserts_only_locally emptyDict none (some qvVar) true none
    false false (some qvMat) (emptyDict.add_variable qvMat) rfl

/-- C1: when the requested standard name is absent locally and the parent
chain does not resolve it, and the source descriptor is a constituent,
`find_variable` materializes: each dimension is rewritten by `subst_dim`
(split on `:`, `horizontal_loop_extent` and `horizontal_loop_end` tokens
become `horizontal_dimension`, `horizontal_loop_begin` becomes
`ccpp_constant_one`, other tokens unchanged, rejoined with `:`), the clone
of the source with these dimensions has its intent removed and source type
`suite`, and it is returned after being inserted into the local table. -/
theorem find_variable_materializes_constituent (dict : ConstituentVarDict)
    (sv : Var) (standard_name : Option String) (any_scope : Bool)
    (clone : Option Var) (search_call_list loop_subst : Bool)
    (hname : standard_name = none ∨ standard_name = some sv.standard_name)
    (hlocal : dict.entries.lookup sv.standard_name = none)
    (hparent : ∀ p, dict.parent_dict = some p →
      p.find (some sv.standard_name) (some sv) any_scope none search_call_list
        loop_subst = none)
    (hconst : sv.is_constituent = true) :
    dict.find_variable standard_name (some sv) any_scope clone search_call_list
        loop_subst =
      Except.ok (some (sv.clone (sv.dimensions.map subst_dim) true "suite"),
        dict.add_variable (sv.clone (sv.dimensions.map subst_dim) true "suite")) ∧
    (sv.clone (sv.dimensions.map subst_dim) true "suite").intent = none ∧
    (sv.clone (sv.dimensions.map subst_dim) true "suite").source_type = "suite" := by
  have hvar : dict.local_or_parent_var sv.standard_name (some sv) any_scope
      search_call_list loop_subst = none := by
    unfold ConstituentVarDict.local_or_parent_var
    rw [hlocal]
    rcases hp : dict.parent_dict with _ | p
    · cases any_scope <;> simp [hp]
    · cases any_scope <;> simp [hp, hparent p hp]
  have hres : dict.find_variable_resolved sv.standard_name (some sv) any_scope
      search_call_list loop_subst =
      (some (sv.clone (sv.dimensions.map subst_dim) true "suite"),
        dict.add_variable (sv.clone (sv.dimensions.map subst_dim) true "suite")) := by
    unfold ConstituentVarDict.find_variable_resolved
    rw [hvar]
    simp [hconst]
  refine ⟨?_, rfl, rfl⟩
  rcases hname with rfl | rfl
  · simpa [ConstituentVarDict.find_variable] using hres
  · simpa [ConstituentVarDict.find_variable] using hres

/-- C2 counterexample: with the error-variable list `[ierr]` (local names
not the errflg/errmsg pair), `write_constituent_routines` does raise the
unsupported-convention `ParseInternalError`, but only after text has reached
the sink: the emitted line list at the moment of the raise is not empty
(the init routine, the count routine and the name-routine header were
already written). -/
theorem write_routines_fails_after_partial_output :
    (emptyDict.write_constituent_routines 1 "banana_suite" [ierrVar]).err =
      some "Alternative to errflg not implemented" ∧
    (emptyDict.write_constituent_routines 1 "banana_suite" [ierrVar]).lines ≠ [] := by
  exact ⟨rfl, by decide⟩

/-- C2 (amended): `write_constituent_routines` raises the
unsupported-convention `ParseInternalError` exactly when the error-variable
local names do not contain both `errflg` and `errmsg`, and when it raises,
the sink already holds earlier output (the failure is not before any text is
written). -/
theorem write_routines_err_iff_missing_errflg_errmsg (dict : ConstituentVarDict)
    (indent : Nat) (suite_name : String) (err_vars : List Var) :
    ((dict.write_constituent_routines indent suite_name err_vars).err ≠ none ↔
      use_errflg err_vars = false) ∧
    (use_errflg err_vars = false →
      (dict.write_constituent_routines indent suite_name err_vars).lines ≠ []) := by
  cases h : use_errflg err_vars with
  | true =>
    refine ⟨?_, by intro hf; cases hf⟩
    simp [ConstituentVarDict.write_constituent_routines,
      ConstituentVarDict.const_name_routine, ConstituentVarDict.copy_const_routine,
      ConstituentVarDict._write_init_check, ConstituentVarDict._write_index_check,
      GenOut.seq, GenOut.write, h]
  | false =>
    constructor
    · simp [ConstituentVarDict.write_constituent_routines,
        ConstituentVarDict.const_name_routine, ConstituentVarDict.copy_const_routine,
        ConstituentVarDict._write_init_check, ConstituentVarDict._write_index_check,
        GenOut.seq, GenOut.write, h]
    · intro _
      simp [ConstituentVarDict.write_constituent_routines,
        ConstituentVarDict.const_name_routine, ConstituentVarDict.copy_const_routine,
        ConstituentVarDict._write_init_check, ConstituentVarDict._write_index_check,
        ConstituentVarDict.init_routine_lines,
        GenOut.seq, GenOut.write, h]

/-- Witness for C2 (amended), at the concrete input of the counterexample:
the `[ierr]` convention raises, and the sink is not empty when it does. -/
theorem write_routines_err_iff_missing_errflg_errmsg_witness :
    ((emptyDict.write_constituent_routines 1 "banana_suite" [ierrVar]).err ≠ none) ∧
    (emptyDict.write_constituent_routines 1 "banana_suite" [ierrVar]).lines ≠ [] :=
  ⟨(write_routines_err_iff_missing_errflg_errmsg emptyDict 1 "banana_suite"
      [ierrVar]).1.mpr rfl,
   (write_routines_err_iff_missing_errflg_errmsg emptyDict 1 "banana_suite"
      [ierrVar]).2 rfl⟩

/-- C3: on a table with zero entries the emitted bounds guard is the
unconditional pair `errflg = 1` plus a message statement, with no `if` on
the requested index — but the message line carries the literal unformatted
`\x7b\x7d` placeholder (the source never applies `.format(suite_name)` to this
template, constituents.py lines 200-202), so the suite-named message the
claim describes is not among the emitted lines. -/
theorem empty_table_index_check_message :
    (emptyDict._write_index_check 1 "banana_suite" ["errflg", "errmsg"] true).lines =
      [("errflg = 1", 2),
       ("write(errmsg, '(a,i0,a)') 'ERROR: suite, \x7b\x7d, has no constituents'", 2)] ∧
    ¬ (("write(errmsg, '(a,i0,a)') 'ERROR: suite, banana_suite, has no constituents'",
          (2 : Nat)) ∈
        (emptyDict._write_index_check 1 "banana_suite" ["errflg", "errmsg"] true).lines) := by
  exact ⟨by decide, by decide⟩

/-- C9: the emitted count routine contains, in order, the initialized-flag
guard, the lazy call of the init routine under it, the end of the guard, and
then the assignment returning the table's frozen (generation-time) length. -/
theorem num_consts_lazy_init_then_frozen_length (dict : ConstituentVarDict)
    (indent : Nat) (err_vars : List Var) :
    List.Sublist
      [("if (.not. " ++ constituent_prop_init_name ++ ") then", indent + 1),
       ("call " ++ constituent_prop_init_consts ++ "(" ++ errvar_call err_vars ++ ")",
         indent + 2),
       ("end if", indent + 1),
       (dict.num_consts_funcname ++ " = " ++ toString dict.entries.length, indent + 1)]
      (dict.num_consts_lines indent err_vars) := by
  unfold ConstituentVarDict.num_consts_lines
  rw [List.append_assoc]
  refine List.Sublist.trans ?_ (List.sublist_append_right _ _)
  refine List.Sublist.trans ?_ (List.sublist_append_right _ _)
  exact List.Sublist.cons _ (List.Sublist.cons₂ _ (List.Sublist.cons₂ _
    (List.Sublist.cons₂ _ (List.Sublist.cons₂ _ (List.nil_sublist _)))))

/-- C5 counterexample: for a table entry with `vertical_layer_dimension`
among its dimension names, the constructor call emitted by the init routine
passes the literal `vertical_layer_dimension` as the vertical-axis tag, not
the literal `layer` the claim states. -/
theorem init_routine_vertical_tag_not_layer :
    (("call ccpp_constituent_array(index)%initialize(\"specific_humidity\", \"vertical_layer_dimension\", .true., errflg=errflg, errmsg=errmsg)",
        (2 : Nat)) ∈ qvDict.init_routine_lines 1 [errflgVar, errmsgVar]) ∧
    ¬ (("call ccpp_constituent_array(index)%initialize(\"specific_humidity\", \"layer\", .true., errflg=errflg, errmsg=errmsg)",
        (2 : Nat)) ∈ qvDict.init_routine_lines 1 [errflgVar, errmsgVar]) := by
  exact ⟨by decide, by decide⟩

/-- C5 (amended): for every table entry, the init routine emits a
constructor call with the entry's standard name, a vertical-axis tag that is
the literal `vertical_layer_dimension` when that name appears among the
entry's dimension names, else `vertical_interface_dimension` when that name
appears, else the empty string, and the advected flag rendered by
`TF_string` as one of the two fixed boolean literal tokens. -/
theorem init_routine_entry_call_line (dict : ConstituentVarDict) (indent : Nat)
    (err_vars : List Var) (std_name : String) (var : Var)
    (h : (std_name, var) ∈ dict.entries) :
    (("call " ++ constituent_prop_array_name ++ "(index)%initialize(\"" ++ std_name
      ++ "\", \""
      ++ (if var.get_dim_stdnames.contains "vertical_layer_dimension" then
            "vertical_layer_dimension"
          else if var.get_dim_stdnames.contains "vertical_interface_dimension" then
            "vertical_interface_dimension"
          else "")
      ++ "\", " ++ TF_string var.advected ++ errvar_call2 err_vars ++ ")",
      indent + 1) ∈ dict.init_routine_lines indent err_vars) ∧
    (TF_string var.advected = ".true." ∨ TF_string var.advected = ".false.") := by
  refine ⟨?_, by cases var.advected <;> simp [TF_string]⟩
  have hmem : (("call " ++ constituent_prop_array_name ++ "(index)%initialize(\""
      ++ std_name ++ "\", \""
      ++ (if var.get_dim_stdnames.contains "vertical_layer_dimension" then
            "vertical_layer_dimension"
          else if var.get_dim_stdnames.contains "vertical_interface_dimension" then
            "vertical_interface_dimension"
          else "")
      ++ "\", " ++ TF_string var.advected ++ errvar_call2 err_vars ++ ")",
      indent + 1) : Line) ∈
      (dict.entries.map (init_entry_lines err_vars indent)).flatten := by
    refine List.mem_flatten.mpr
      ⟨init_entry_lines err_vars indent (std_name, var), List.mem_map_of_mem _ h, ?_⟩
    simp [init_entry_lines]
  unfold ConstituentVarDict.init_routine_lines
  simp only [List.append_assoc, List.mem_append]
  exact Or.inr (Or.inr (Or.inr (Or.inl hmem)))

/-- Witness for C5 (amended): the `specific_humidity` entry of `qvDict`
yields its constructor call line in the emitted init routine. -/
theorem init_routine_entry_call_line_witness :
    (("call " ++ constituent_prop_array_name ++ "(index)%initialize(\""
      ++ "specific_humidity" ++ "\", \""
      ++ (if qvVar.get_dim_stdnames.contains "vertical_layer_dimension" then
            "vertical_layer_dimension"
          else if qvVar.get_dim_stdnames.contains "vertical_interface_dimension" then
            "vertical_interface_dimension"
          else "")
      ++ "\", " ++ TF_string qvVar.advected ++ errvar_call2 [errflgVar, errmsgVar] ++ ")",
      (2 : Nat)) ∈ qvDict.init_routine_lines 1 [errflgVar, errmsgVar]) ∧
    (TF_string qvVar.advected = ".true." ∨ TF_string qvVar.advected = ".false.") :=
  init_routine_entry_call_line qvDict 1 [errflgVar, errmsgVar] "specific_humidity"
    qvVar (by decide)

/-- C4 counterexample: in the run-time semantics of the emitted name-by-index
routine (`const_name_call`, transcribed from the emitted lines), a request
with index 0 against an initialized one-entry table trips the bounds guard
(`errflg = 1`), yet the unguarded final call statement still evaluates the
array subscript 0 — the read does not execute "only after both guards
pass". -/
theorem const_name_reads_array_despite_failed_guard :
    (const_name_call "banana_suite" true ["specific_humidity"] 0).errflg = 1 ∧
    (const_name_call "banana_suite" true ["specific_humidity"] 0).reads = [0] ∧
    (const_name_call "banana_suite" true ["specific_humidity"] 0).name_out = none := by
  exact ⟨by decide, by decide, by decide⟩

/-- C4 (amended): for a non-empty table under the errflg/errmsg convention,
the emitted name-by-index routine raises nothing and contains, in fixed
order, (1) the initialized-flag guard with its suite-named message, then
(2) the bounds guard against the live `SIZE(ccpp_constituent_array)` with
the `too small` and `too large` messages, and then the statement reading the
stored standard name; that read statement is emitted directly between the
bounds guard's `end if` and the routine's `end subroutine`, nested under no
guard, so it executes regardless of `errflg`. -/
theorem const_name_routine_guard_order (dict : ConstituentVarDict) (indent : Nat)
    (suite_name : String) (err_vars : List Var)
    (hne : dict.entries ≠ []) (he : use_errflg err_vars = true) :
    (dict.const_name_routine indent suite_name err_vars).err = none ∧
    List.Sublist
      [("if (.not. " ++ constituent_prop_init_name ++ ") then", indent + 1),
       ("errmsg = \"constituent properties not initialized for suite, "
         ++ suite_name ++ "\"", indent + 2),
       ("if (index < 1) then", indent + 1),
       ("write(errmsg, '(a,i0,a)') 'ERROR: index (',index,') too small, must be >= 1'",
         indent + 2),
       ("else if (index > SIZE(" ++ constituent_prop_array_name ++ ")) then", indent + 1),
       ("write(errmsg, '(2(a,i0))') 'ERROR: index (',index,') too large, must be <= ', SIZE("
         ++ constituent_prop_array_name ++ ")", indent + 2),
       ("call " ++ constituent_prop_array_name ++ "(index)%standard_name(name_out"
         ++ errvar_call2 err_vars ++ ")", indent + 1)]
      (dict.const_name_routine indent suite_name err_vars).lines ∧
    List.IsInfix
      [("end if", indent + 1),
       ("call " ++ constituent_prop_array_name ++ "(index)%standard_name(name_out"
         ++ errvar_call2 err_vars ++ ")", indent + 1),
       ("end subroutine " ++ dict.const_name_subname, indent)]
      (dict.const_name_routine indent suite_name err_vars).lines := by
  have hl : (dict.const_name_routine indent suite_name err_vars).lines =
      ([("subroutine " ++ dict.const_name_subname ++ "(index, name_out"
          ++ errvar_alist2 err_vars ++ ")", indent),
        ("! Return the name of constituent, <index>", indent + 1),
        ("! Dummy arguments", indent + 1),
        ("integer,            intent(in)    :: index", indent + 1),
        ("character(len=*),   intent(out)   :: name_out", indent + 1)]
       ++ err_vars.map (fun evar => evar.write_def (indent + 1)))
      ++ ([("", 0),
          ("errflg = 0", indent + 1),
          ("errmsg = ''", indent + 1),
          ("! Make sure that our constituent array is initialized", indent + 1),
          ("if (.not. " ++ constituent_prop_init_name ++ ") then", indent + 1),
          ("errflg = 1", indent + 2),
          ("errmsg = \"constituent properties not initialized for suite, "
            ++ suite_name ++ "\"", indent + 2),
          ("end if", indent + 1)]
        ++ ([("if (index < 1) then", indent + 1),
            ("errflg = 1", indent + 2),
            ("write(errmsg, '(a,i0,a)') 'ERROR: index (',index,') too small, must be >= 1'",
              indent + 2),
            ("else if (index > SIZE(" ++ constituent_prop_array_name ++ ")) then",
              indent + 1),
            ("errflg = 1", indent + 2),
            ("write(errmsg, '(2(a,i0))') 'ERROR: index (',index,') too large, must be <= ', SIZE("
              ++ constituent_prop_array_name ++ ")", indent + 2),
            ("end if", indent + 1)]
          ++ [("call " ++ constituent_prop_array_name ++ "(index)%standard_name(name_out"
                ++ errvar_call2 err_vars ++ ")", indent + 1),
              ("end subroutine " ++ dict.const_name_subname, indent),
              eq_separator])) := by
    simp [ConstituentVarDict.const_name_routine, ConstituentVarDict._write_init_check,
      ConstituentVarDict._write_index_check, GenOut.seq, GenOut.write, he, hne]
  refine ⟨?_, ?_, ?_⟩
  · simp [ConstituentVarDict.const_name_routine, ConstituentVarDict._write_init_check,
      ConstituentVarDict._write_index_check, GenOut.seq, GenOut.write, he, hne]
  · rw [hl]
    refine List.Sublist.trans ?_ (List.sublist_append_right _ _)
    have s1 : List.Sublist
        [("if (.not. " ++ constituent_prop_init_name ++ ") then", indent + 1),
         ("errmsg = \"constituent properties not initialized for suite, "
           ++ suite_name ++ "\"", indent + 2)]
        [(("", 0) : Line),
         ("errflg = 0", indent + 1),
         ("errmsg = ''", indent + 1),
         ("! Make sure that our constituent array is initialized", indent + 1),
         ("if (.not. " ++ constituent_prop_init_name ++ ") then", indent + 1),
         ("errflg = 1", indent + 2),
         ("errmsg = \"constituent properties not initialized for suite, "
           ++ suite_name ++ "\"", indent + 2),
         ("end if", indent + 1)] :=
      List.Sublist.cons _ (List.Sublist.cons _ (List.Sublist.cons _
        (List.Sublist.cons _ (List.Sublist.cons₂ _ (List.Sublist.cons _
          (List.Sublist.cons₂ _ (List.nil_sublist _)))))))
    have s2 : List.Sublist
        [("if (index < 1) then", indent + 1),
         ("write(errmsg, '(a,i0,a)') 'ERROR: index (',index,') too small, must be >= 1'",
           indent + 2),
         ("else if (index > SIZE(" ++ constituent_prop_array_name ++ ")) then",
           indent + 1),
         ("write(errmsg, '(2(a,i0))') 'ERROR: index (',index,') too large, must be <= ', SIZE("
           ++ constituent_prop_array_name ++ ")", indent + 2)]
        [(("if (index < 1) then", indent + 1) : Line),
         ("errflg = 1", indent + 2),
         ("write(errmsg, '(a,i0,a)') 'ERROR: index (',index,') too small, must be >= 1'",
           indent + 2),
         ("else if (index > SIZE(" ++ constituent_prop_array_name ++ ")) then",
           indent + 1),
         ("errflg = 1", indent + 2),
         ("write(errmsg, '(2(a,i0))') 'ERROR: index (',index,') too large, must be <= ', SIZE("
           ++ constituent_prop_array_name ++ ")", indent + 2),
         ("end if", indent + 1)] :=
      List.Sublist.cons₂ _ (List.Sublist.cons _ (List.Sublist.cons₂ _
        (List.Sublist.cons₂ _ (List.Sublist.cons _ (List.Sublist.cons₂ _
          (List.nil_sublist _))))))
    have s3 : List.Sublist
        [("call " ++ constituent_prop_array_name ++ "(index)%standard_name(name_out"
            ++ errvar_call2 err_vars ++ ")", indent + 1)]
        [(("call " ++ constituent_prop_array_name ++ "(index)%standard_name(name_out"
            ++ errvar_call2 err_vars ++ ")", indent + 1) : Line),
         ("end subroutine " ++ dict.const_name_subname, indent),
         eq_separator] :=
      List.Sublist.cons₂ _ (List.nil_sublist _)
    simpa using s1.append (s2.append s3)
  · rw [hl]
    refine ⟨([("subroutine " ++ dict.const_name_subname ++ "(index, name_out"
          ++ errvar_alist2 err_vars ++ ")", indent),
        ("! Return the name of constituent, <index>", indent + 1),
        ("! Dummy arguments", indent + 1),
        ("integer,            intent(in)    :: index", indent + 1),
        ("character(len=*),   intent(out)   :: name_out", indent + 1)]
       ++ err_vars.map (fun evar => evar.write_def (indent + 1)))
      ++ [("", 0),
          ("errflg = 0", indent + 1),
          ("errmsg = ''", indent + 1),
          ("! Make sure that our constituent array is initialized", indent + 1),
          ("if (.not. " ++ constituent_prop_init_name ++ ") then", indent + 1),
          ("errflg = 1", indent + 2),
          ("errmsg = \"constituent properties not initialized for suite, "
            ++ suite_name ++ "\"", indent + 2),
          ("end if", indent + 1)]
      ++ [("if (index < 1) then", indent + 1),
          ("errflg = 1", indent + 2),
          ("write(errmsg, '(a,i0,a)') 'ERROR: index (',index,') too small, must be >= 1'",
            indent + 2),
          ("else if (index > SIZE(" ++ constituent_prop_array_name ++ ")) then",
            indent + 1),
          ("errflg = 1", indent + 2),
          ("write(errmsg, '(2(a,i0))') 'ERROR: index (',index,') too large, must be <= ', SIZE("
            ++ constituent_prop_array_name ++ ")", indent + 2)],
      [eq_separator], ?_⟩
    simp

/-- Witness for C4 (amended), at the one-entry table `qvDict` with the
errflg/errmsg pair. -/
theorem const_name_routine_guard_order_witness :
    (qvDict.const_name_routine 1 "banana_suite" [errflgVar, errmsgVar]).err = none ∧
    List.Sublist
      [("if (.not. " ++ constituent_prop_init_name ++ ") then", 2),
       ("errmsg = \"constituent properties not initialized for suite, "
         ++ "banana_suite" ++ "\"", 3),
       ("if (index < 1) then", 2),
       ("write(errmsg, '(a,i0,a)') 'ERROR: index (',index,') too small, must be >= 1'", 3),
       ("else if (index > SIZE(" ++ constituent_prop_array_name ++ ")) then", 2),
       ("write(errmsg, '(2(a,i0))') 'ERROR: index (',index,') too large, must be <= ', SIZE("
         ++ constituent_prop_array_name ++ ")", 3),
       ("call " ++ constituent_prop_array_name ++ "(index)%standard_name(name_out"
         ++ errvar_call2 [errflgVar, errmsgVar] ++ ")", 2)]
      (qvDict.const_name_routine 1 "banana_suite" [errflgVar, errmsgVar]).lines ∧
    List.IsInfix
      [("end if", 2),
       ("call " ++ constituent_prop_array_name ++ "(index)%standard_name(name_out"
         ++ errvar_call2 [errflgVar, errmsgVar] ++ ")", 2),
       ("end subroutine " ++ qvDict.const_name_subname, 1)]
      (qvDict.const_name_routine 1 "banana_suite" [errflgVar, errmsgVar]).lines :=
  const_name_routine_guard_order qvDict 1 "banana_suite" [errflgVar, errmsgVar]
    (by decide) rfl

/-- Helper for C8: running the emitted index-resolution loop over names that
all have a positive field index stores every one at its 1-based position and
leaves a clean error state. -/
theorem set_index_loop_go_all_found (fi : String → Int) (l : List String)
    (pos : Nat) (acc : List (Nat × Int)) (h : ∀ m ∈ l, fi m > 0) :
    set_index_loop_go fi l pos acc =
      (acc.reverse ++ (l.enumFrom pos).map (fun p => (p.1, fi p.2)), 0, "") := by
  induction l generalizing pos acc with
  | nil => simp [set_index_loop_go]
  | cons n rest ih =>
    have hn := h n (List.mem_cons_self n rest)
    rw [set_index_loop_go, if_pos hn,
      ih _ _ (fun m hm => h m (List.mem_cons_of_mem _ hm))]
    simp [List.enumFrom_cons]

/-- Helper for C8: if every name before `n` has a positive field index and
`n` does not, the loop stores exactly the prefix, fails with the
`No field index for` message, and exits, leaving everything after `n`
unresolved. -/
theorem set_index_loop_go_fail (fi : String → Int) (pre : List String)
    (n : String) (post : List String) (pos : Nat) (acc : List (Nat × Int))
    (hpre : ∀ m ∈ pre, fi m > 0) (hn : fi n ≤ 0) :
    set_index_loop_go fi (pre ++ n :: post) pos acc =
      (acc.reverse ++ (pre.enumFrom pos).map (fun p => (p.1, fi p.2)), 1,
        "No field index for " ++ n) := by
  induction pre generalizing pos acc with
  | nil =>
    rw [List.nil_append, set_index_loop_go, if_neg (by omega)]
    simp
  | cons m rest ih =>
    have hm := hpre m (List.mem_cons_self m rest)
    rw [List.cons_append, set_index_loop_go, if_pos hm,
      ih _ _ (fun x hx => hpre x (List.mem_cons_of_mem _ hx))]
    simp [List.enumFrom_cons]

/-- C8: the emitted host-registration index loop (`set_index_loop`, the
semantics of `host_set_index_lines`), run over the required names in list
order, stores each found (>0) field index at that name's 1-based position;
at the first name with no field index it sets `errflg = 1` with the message
`No field index for <name>` and exits, so no name after the failing one is
stored. -/
theorem host_index_loop_spec (fi : String → Int) :
    (∀ names : List String, (∀ m ∈ names, fi m > 0) →
      set_index_loop fi names =
        ((names.enumFrom 1).map (fun p => (p.1, fi p.2)), 0, "")) ∧
    (∀ (pre : List String) (n : String) (post : List String),
      (∀ m ∈ pre, fi m > 0) → fi n ≤ 0 →
      set_index_loop fi (pre ++ n :: post) =
        ((pre.enumFrom 1).map (fun p => (p.1, fi p.2)), 1,
          "No field index for " ++ n)) := by
  constructor
  · intro names h
    simpa using set_index_loop_go_all_found fi names 1 [] h
  · intro pre n post hpre hn
    simpa using set_index_loop_go_fail fi pre n post 1 [] hpre hn

/-- Witness for C8: with a registry where `graupel` is absent, the loop over
`[specific_humidity, rain, graupel, snow]` stores positions 1 and 2, fails
on `graupel`, and leaves `snow` unresolved. -/
theorem host_index_loop_spec_witness :
    set_index_loop sampleFieldIndex ["specific_humidity", "rain", "graupel", "snow"] =
      ([(1, 3), (2, 3)], 1, "No field index for graupel") :=
  (host_index_loop_spec sampleFieldIndex).2 ["specific_humidity", "rain"] "graupel"
    ["snow"] (by decide) (by decide)

/-- Witness for C1: `qvVar` (dimensions
`horizontal_loop_begin:horizontal_loop_end` and `vertical_layer_dimension`)
materializes as `qvMat` in an empty parentless dictionary, with intent
removed and source type `suite`. -/
theorem find_variable_materializes_constituent_witness :
    emptyDict.find_variable none (some qvVar) true none false false =
      Except.ok (some qvMat, emptyDict.add_variable qvMat) ∧
    qvMat.intent = none ∧ qvMat.source_type = "suite" :=
  find_variable_materializes_constituent emptyDict qvVar none true none false
    false (Or.inl rfl) rfl (fun p hp => by simp [emptyDict] at hp) rfl

end CCPP
